import Mathlib

/-!
Shallow embedding of `src/app.py`, the Illinois income-tax (INC) LGDF
modeling dashboard.  Monetary amounts and rates are rationals; a pandas
missing value (NaN, as produced by a failed rate-table lookup on line 80)
is `none`, and pandas reductions that skip missing values (`sum`, row-wise
`max`) are modelled accordingly.
-/

/-- Lines 14-29 of app.py: the fixed actual effective LGDF rate by fiscal year.
The percentages are written as exact fractions (6.00, 6.00, 6.00, 6.00, 8.00,
8.00, 5.45, 5.75, 5.75, 6.06, 6.06, 6.16, 6.47, 6.47). -/
def ACTUAL_EFFECTIVE_RATES : List (Nat × ℚ) :=
  [(2012, 6), (2013, 6), (2014, 6), (2015, 6),
   (2016, 8), (2017, 8), (2018, mkRat 545 100), (2019, mkRat 575 100),
   (2020, mkRat 575 100), (2021, mkRat 606 100), (2022, mkRat 606 100), (2023, mkRat 616 100),
   (2024, mkRat 647 100), (2025, mkRat 647 100)]

/-- Dictionary lookup as performed by pandas `Series.map` on lines 80 and 107:
a year with no table entry maps to a missing value (NaN), not an error. -/
def rate_for (table : List (Nat × ℚ)) (y : Nat) : Option ℚ :=
  (table.find? (fun p => p.1 == y)).map Prod.snd

/-- Row of the loaded dataset after `load_data` (lines 41-52 of app.py). -/
structure Record where
  local_government : String
  tax : String
  fy : Nat
  fy_total : ℚ
deriving DecidableEq

/-- Row of the dataframe after the modeled columns are added (lines 80-84).
`actual_rate` and `forgone_revenue` are `none` exactly when the rate lookup
missed (pandas NaN); `modeled_collection` is always present because the
row-wise `max` on line 84 skips missing values. -/
structure Row where
  local_government : String
  tax : String
  fy : Nat
  fy_total : ℚ
  actual_rate : Option ℚ
  modeled_collection : ℚ
  forgone_revenue : Option ℚ
deriving DecidableEq

/-- Line 80: `df["actual_rate"] = df["fy"].map(ACTUAL_EFFECTIVE_RATES)`. -/
def col_actual_rate (r : Record) : Option ℚ :=
  rate_for ACTUAL_EFFECTIVE_RATES r.fy

/-- Line 81: `df["modeled_collection"] = df["fy_total"] * (modeled_rate / df["actual_rate"])`,
before the overwrite on line 84.  A missing rate propagates to a missing value. -/
def col_modeled0 (modeled_rate : ℚ) (r : Record) : Option ℚ :=
  (col_actual_rate r).map (fun ar => r.fy_total * (modeled_rate / ar))

/-- Lines 82-83: `forgone_revenue = modeled_collection - fy_total`, clipped below at 0.
`clip(lower=0)` keeps a missing value missing. -/
def col_forgone (modeled_rate : ℚ) (r : Record) : Option ℚ :=
  ((col_modeled0 modeled_rate r).map (fun m => m - r.fy_total)).map (fun f => max f 0)

/-- Line 84: `df["modeled_collection"] = df[["fy_total", "modeled_collection"]].max(axis=1)`.
The pandas row-wise `max` skips missing values, so a missing modeled value
silently falls back to `fy_total`. -/
def col_modeled (modeled_rate : ℚ) (r : Record) : ℚ :=
  match col_modeled0 modeled_rate r with
  | some m => max r.fy_total m
  | none => r.fy_total

/-- Lines 80-84 assembled: one dataframe row after the modeled columns are added. -/
def modelRecord (modeled_rate : ℚ) (r : Record) : Row :=
  ⟨r.local_government, r.tax, r.fy, r.fy_total,
   col_actual_rate r, col_modeled modeled_rate r, col_forgone modeled_rate r⟩

/-- The whole modeling pass: lines 80-84 applied to every loaded record. -/
def model (modeled_rate : ℚ) (recs : List Record) : List Row :=
  recs.map (modelRecord modeled_rate)

/-- Pandas `Series.sum()` over a column that may contain missing values:
missing entries are skipped (contribute 0). -/
def optSum (l : List (Option ℚ)) : ℚ :=
  (l.map (fun o => o.getD 0)).sum

/-- Pandas `sort_values(by=key, ascending=False)` on a single column.  Pandas
(`nargsort`) computes the ascending argsort of the key and then reverses the
whole indexer, so a descending sort is the reverse of an ascending sort; the
ascending sort is modelled as a stable insertion sort, while the tie order of
numpy's default `kind='quicksort'` is unspecified.  A missing key sorts last
in either direction (`na_position="last"`), matched by keying missing values
to bottom. -/
def sortDescBy {α κ : Type} [LinearOrder κ] (key : α → κ) (l : List α) : List α :=
  (List.insertionSort (fun a b => key a ≤ key b) l).reverse

/-- Pandas `groupby` iterates groups in ascending sorted order of the distinct keys. -/
def groupKeys {κ : Type} [LinearOrder κ] [DecidableEq κ] (l : List κ) : List κ :=
  (List.insertionSort (fun a b => a ≤ b) l).dedup

/-- Inclusive year-range filter: `df[df["fy"].between(lo, hi)]` (lines 100 and 356). -/
def inRangeRows (recs : List Row) (lo hi : Nat) : List Row :=
  recs.filter (fun r => decide (lo ≤ r.fy ∧ r.fy ≤ hi))

/-- Rows of one municipality: `l[l["local_government"] == m]`. -/
def muniGroup (l : List Row) (m : String) : List Row :=
  l.filter (fun r => decide (r.local_government = m))

/-- Rows of one fiscal year: `l[l["fy"] == y]`. -/
def yearGroup (l : List Row) (y : Nat) : List Row :=
  l.filter (fun r => decide (r.fy = y))

/-- Output row of `filter_data` (lines 98-111): the columns present in both
branches (the aggregate branch has no `tax` column). -/
structure FRow where
  local_government : String
  fy : Nat
  fy_total : ℚ
  actual_rate : Option ℚ
  modeled_collection : ℚ
  forgone_revenue : Option ℚ
deriving DecidableEq

/-- Lines 98-111 of app.py: filter by municipality and year range; for the
"All Municipalities" selector, group by fiscal year, sum the three monetary
columns (pandas `sum` skips missing values and yields a plain number), re-map
`actual_rate` from the rate table, and set the sentinel municipality label. -/
def filter_data (recs : List Row) (muni : String) (lo hi : Nat) : List FRow :=
  if muni = "All Municipalities" then
    (groupKeys ((inRangeRows recs lo hi).map (·.fy))).map (fun y =>
      ⟨"All Municipalities", y,
       ((yearGroup (inRangeRows recs lo hi) y).map (·.fy_total)).sum,
       rate_for ACTUAL_EFFECTIVE_RATES y,
       ((yearGroup (inRangeRows recs lo hi) y).map (·.modeled_collection)).sum,
       some (optSum ((yearGroup (inRangeRows recs lo hi) y).map (·.forgone_revenue)))⟩)
  else
    ((inRangeRows recs lo hi).filter (fun r => decide (r.local_government = muni))).map
      (fun r => ⟨r.local_government, r.fy, r.fy_total, r.actual_rate,
                 r.modeled_collection, r.forgone_revenue⟩)

/-- Line 185 / line 308: `d.sort_values("fy", ascending=False)`. -/
def sorted_desc_fy (d : List FRow) : List FRow :=
  sortDescBy (fun r => r.fy) d

/-- Line 188: the most recent year's forgone revenue, or the scalar 0 when the
filtered set is empty. -/
def impact_1yr (d : List FRow) : Option ℚ :=
  match sorted_desc_fy d with
  | [] => some 0
  | r :: _ => r.forgone_revenue

/-- Line 191: `sorted.head(3)["forgone_revenue"].sum() if len(sorted) >= 3 else
sorted["forgone_revenue"].sum()`. -/
def impact_3yr (d : List FRow) : ℚ :=
  if 3 ≤ (sorted_desc_fy d).length then
    optSum (((sorted_desc_fy d).take 3).map (·.forgone_revenue))
  else optSum ((sorted_desc_fy d).map (·.forgone_revenue))

/-- Line 194: the 5-year analogue of `impact_3yr`. -/
def impact_5yr (d : List FRow) : ℚ :=
  if 5 ≤ (sorted_desc_fy d).length then
    optSum (((sorted_desc_fy d).take 5).map (·.forgone_revenue))
  else optSum ((sorted_desc_fy d).map (·.forgone_revenue))

/-- Line 197: `d["forgone_revenue"].sum()` over the whole filtered selection. -/
def impact_total (d : List FRow) : ℚ :=
  optSum (d.map (·.forgone_revenue))

/-- Row of the per-municipality ranking aggregate (lines 358-362). -/
structure MuniTotal where
  local_government : String
  total_actual : ℚ
  total_modeled : ℚ
  total_forgone : ℚ
deriving DecidableEq

/-- Lines 358-362 before the sort: group the year-filtered rows by municipality
(ascending key order) and sum the three monetary columns. -/
def groupedTotals (l : List Row) : List MuniTotal :=
  (groupKeys (l.map (·.local_government))).map (fun m =>
    ⟨m, ((muniGroup l m).map (·.fy_total)).sum,
        ((muniGroup l m).map (·.modeled_collection)).sum,
        optSum ((muniGroup l m).map (·.forgone_revenue))⟩)

/-- Lines 356-362: year-range filter, per-municipality sums, then
`sort_values("total_forgone", ascending=False)`. -/
def muni_totals (recs : List Row) (lo hi : Nat) : List MuniTotal :=
  sortDescBy (fun t => t.total_forgone) (groupedTotals (inRangeRows recs lo hi))

/-- Line 365: `muni_totals["total_actual"].sum()` — over all municipalities. -/
def grand_actual (recs : List Row) (lo hi : Nat) : ℚ :=
  ((muni_totals recs lo hi).map (·.total_actual)).sum

/-- Line 366: `muni_totals["total_modeled"].sum()` — over all municipalities. -/
def grand_modeled (recs : List Row) (lo hi : Nat) : ℚ :=
  ((muni_totals recs lo hi).map (·.total_modeled)).sum

/-- Line 364: `muni_totals["total_forgone"].sum()` — over all municipalities. -/
def grand_total (recs : List Row) (lo hi : Nat) : ℚ :=
  ((muni_totals recs lo hi).map (·.total_forgone)).sum

/-- Line 376: `muni_totals.head(top_n)`. -/
def top_munis (recs : List Row) (lo hi : Nat) (n : Nat) : List MuniTotal :=
  (muni_totals recs lo hi).take n

/-- Lines 420-421: the ranking table, with a `Rank` column counting from 1. -/
def display_top (recs : List Row) (lo hi : Nat) (n : Nat) : List (Nat × MuniTotal) :=
  (List.range' 1 (top_munis recs lo hi n).length).zip (top_munis recs lo hi n)

/-- The sort key of line 466: `sort_values("forgone_revenue", ascending=False)`
with pandas `na_position="last"` — a missing value sorts below every number. -/
def forgKey (r : Row) : WithBot ℚ :=
  match r.forgone_revenue with
  | some v => (v : WithBot ℚ)
  | none => ⊥

/-- Anchored regular-expression match at the start of the subject, for the
fragment of Python `re` syntax consisting of literal characters and the `.`
wildcard (which matches any character except a newline).  Case-insensitive,
as produced by `case=False` on line 464.  Metacharacters other than the
wildcard are outside the modelled fragment (here they would match literally,
unlike in Python), and no theorem below evaluates the model on them. -/
def reMatchHere : List Char → List Char → Bool
  | [], _ => true
  | _ :: _, [] => false
  | p :: ps, c :: cs =>
      ((decide (p = '.') && decide (c ≠ '\n')) || decide (p.toLower = c.toLower)) &&
        reMatchHere ps cs

/-- Python `re.search`: try the anchored match at every start position,
including the position at the end of the subject. -/
def reSearch (pat : List Char) : List Char → Bool
  | [] => reMatchHere pat []
  | c :: cs => reMatchHere pat (c :: cs) || reSearch pat cs

/-- Line 464: `t["local_government"].str.contains(name_filter, case=False)`.
Pandas `str.contains` defaults to `regex=True`, i.e. `re.search` with
`re.IGNORECASE`.  Modelled here for the fragment of patterns made of literal
characters and the `.` wildcard; patterns using any other metacharacter
behave differently in Python (or raise `re.error`) and are outside the model,
so the theorems below apply it only to metacharacter-free filters, plus the
wildcard itself in the counterexample where the fragment is exact. -/
def strContainsCI (s pat : String) : Bool :=
  reSearch pat.toList s.toList

/-- Python regular-expression metacharacters: `re.search` treats a pattern
containing none of these as a plain literal string. -/
def regexMetachars : List Char :=
  ['.', '^', '$', '*', '+', '?', '\x7b', '\x7d', '[', ']', '\\', '|', '(', ')']

/-- Modelled from the spec: the boolean "does `s` start with `pat`" on character
lists, used only to phrase plain substring containment. -/
def charsStartWith : List Char → List Char → Bool
  | [], _ => true
  | _ :: _, [] => false
  | p :: ps, c :: cs => decide (p = c) && charsStartWith ps cs

/-- Modelled from the spec: plain substring containment on character lists. -/
def charsContain (pat : List Char) : List Char → Bool
  | [] => charsStartWith pat []
  | c :: cs => charsStartWith pat (c :: cs) || charsContain pat cs

/-- Modelled from the spec's words "case-insensitive substring filter on
municipality name": plain case-insensitive substring containment, the
comparator the spec describes (as opposed to the regex match the code runs). -/
def substrCI (s pat : String) : Bool :=
  charsContain (pat.toList.map Char.toLower) (s.toList.map Char.toLower)

/-- Lines 459-466 of app.py: the fiscal-year snapshot table — filter to one
year, optionally filter municipality names with `str.contains` (skipped when
the filter string is empty, which is falsy in Python), then sort descending
by forgone revenue. -/
def tab_table (recs : List Row) (year : Nat) (name_filter : String) : List Row :=
  sortDescBy forgKey
    (if name_filter = "" then recs.filter (fun r => decide (r.fy = year))
     else (recs.filter (fun r => decide (r.fy = year))).filter
            (fun r => strContainsCI r.local_government name_filter))

/-! Helper lemmas. -/

/-- Every rate actually present in the rate table is positive. -/
theorem rate_for_pos {y : Nat} {ar : ℚ}
    (h : rate_for ACTUAL_EFFECTIVE_RATES y = some ar) : 0 < ar := by
  unfold rate_for at h
  cases hf : (ACTUAL_EFFECTIVE_RATES.find? (fun p => p.1 == y)) with
  | none => rw [hf] at h; simp at h
  | some p =>
    rw [hf] at h
    simp only [Option.map_some', Option.some.injEq] at h
    subst h
    have hm := List.mem_of_find?_eq_some hf
    fin_cases hm <;> norm_num

/-- Unfolding of the modeled row when the rate lookup succeeds. -/
theorem modelRecord_of_rate {modeled_rate : ℚ} {rec : Record} {ar : ℚ}
    (h : rate_for ACTUAL_EFFECTIVE_RATES rec.fy = some ar) :
    modelRecord modeled_rate rec =
      ⟨rec.local_government, rec.tax, rec.fy, rec.fy_total, some ar,
       max rec.fy_total (rec.fy_total * (modeled_rate / ar)),
       some (max (rec.fy_total * (modeled_rate / ar) - rec.fy_total) 0)⟩ := by
  simp [modelRecord, col_actual_rate, col_modeled, col_modeled0, col_forgone, h]

/-- Unfolding of the modeled row when the rate lookup misses. -/
theorem modelRecord_of_no_rate {modeled_rate : ℚ} {rec : Record}
    (h : rate_for ACTUAL_EFFECTIVE_RATES rec.fy = none) :
    modelRecord modeled_rate rec =
      ⟨rec.local_government, rec.tax, rec.fy, rec.fy_total, none, rec.fy_total, none⟩ := by
  simp [modelRecord, col_actual_rate, col_modeled, col_modeled0, col_forgone, h]

/-- Arithmetic form of the floor/clamp identity used by the stacked chart. -/
theorem max_eq_add_max_sub (a r : ℚ) : max a r = a + max (r - a) 0 := by
  rcases le_total r a with h | h
  · rw [max_eq_left h, max_eq_right (sub_nonpos.mpr h), add_zero]
  · rw [max_eq_right h, max_eq_left (sub_nonneg.mpr h)]; ring

/-! Claim theorems for the per-record modeling engine. -/

/-- Claim C1: for every record with a rate-table entry for its year and every
positive modeled rate, the modeling engine computes
`raw_modeled = actual_total * (modeled_rate / actual_rate)`, then
`forgone_revenue = max 0 (raw_modeled - actual_total)`, then
`modeled_collection = max actual_total raw_modeled`. -/
theorem C1_modeling_formula (modeled_rate : ℚ) (rec : Record) (ar : ℚ)
    (h : rate_for ACTUAL_EFFECTIVE_RATES rec.fy = some ar) (hmr : 0 < modeled_rate) :
    (modelRecord modeled_rate rec).actual_rate = some ar ∧
    (modelRecord modeled_rate rec).forgone_revenue
        = some (max 0 (rec.fy_total * (modeled_rate / ar) - rec.fy_total)) ∧
    (modelRecord modeled_rate rec).modeled_collection
        = max rec.fy_total (rec.fy_total * (modeled_rate / ar)) := by
  rw [modelRecord_of_rate h]
  exact ⟨rfl, congrArg some (max_comm _ _), rfl⟩

/-- Witness for C1 at the spec's worked example: Chicago, FY2020,
actual 1000000, modeled rate 10 against actual rate 5.75. -/
theorem C1_modeling_formula_witness :
    rate_for ACTUAL_EFFECTIVE_RATES (2012 + 8) = some (mkRat 575 100) ∧ (0 : ℚ) < 10 ∧
    ((modelRecord 10 ⟨"Chicago", "INC", 2012 + 8, 1000000⟩).actual_rate = some (mkRat 575 100) ∧
     (modelRecord 10 ⟨"Chicago", "INC", 2012 + 8, 1000000⟩).forgone_revenue
         = some (max 0 (1000000 * ((10 : ℚ) / mkRat 575 100) - 1000000)) ∧
     (modelRecord 10 ⟨"Chicago", "INC", 2012 + 8, 1000000⟩).modeled_collection
         = max 1000000 (1000000 * ((10 : ℚ) / mkRat 575 100))) :=
  ⟨by decide, by decide,
   C1_modeling_formula 10 ⟨"Chicago", "INC", 2012 + 8, 1000000⟩ (mkRat 575 100) (by decide)
     (by decide)⟩

/-- Claim C2: after modeling, the collection is floored at the actual total and
the forgone revenue is a present, non-negative value. -/
theorem C2_floor_and_nonneg (modeled_rate : ℚ) (rec : Record) (ar : ℚ)
    (h : rate_for ACTUAL_EFFECTIVE_RATES rec.fy = some ar) (hmr : 0 < modeled_rate)
    (htot : 0 ≤ rec.fy_total) :
    rec.fy_total ≤ (modelRecord modeled_rate rec).modeled_collection ∧
    ∃ v, (modelRecord modeled_rate rec).forgone_revenue = some v ∧ 0 ≤ v := by
  rw [modelRecord_of_rate h]
  exact ⟨le_max_left _ _, _, rfl, le_max_right _ _⟩

/-- Witness for C2 at the spec's worked example. -/
theorem C2_floor_and_nonneg_witness :
    rate_for ACTUAL_EFFECTIVE_RATES (2012 + 8) = some (mkRat 575 100) ∧ (0 : ℚ) < 10 ∧
    (0 : ℚ) ≤ 1000000 ∧
    ((1000000 : ℚ) ≤ (modelRecord 10 ⟨"Chicago", "INC", 2012 + 8, 1000000⟩).modeled_collection ∧
     ∃ v, (modelRecord 10 ⟨"Chicago", "INC", 2012 + 8, 1000000⟩).forgone_revenue = some v ∧
       0 ≤ v) :=
  ⟨by decide, by decide, by decide,
   C2_floor_and_nonneg 10 ⟨"Chicago", "INC", 2012 + 8, 1000000⟩ (mkRat 575 100) (by decide)
     (by decide) (by decide)⟩

/-- Claim C3: when the modeled rate does not exceed the year's actual effective
rate (boundary included), the clamp makes the forgone revenue exactly 0 and the
modeled collection exactly the actual total. -/
theorem C3_clamp_at_or_below_actual (modeled_rate : ℚ) (rec : Record) (ar : ℚ)
    (h : rate_for ACTUAL_EFFECTIVE_RATES rec.fy = some ar) (hmr : 0 < modeled_rate)
    (hle : modeled_rate ≤ ar) (htot : 0 ≤ rec.fy_total) :
    (modelRecord modeled_rate rec).forgone_revenue = some 0 ∧
    (modelRecord modeled_rate rec).modeled_collection = rec.fy_total := by
  have har : 0 < ar := rate_for_pos h
  have hraw : rec.fy_total * (modeled_rate / ar) ≤ rec.fy_total := by
    calc rec.fy_total * (modeled_rate / ar) ≤ rec.fy_total * 1 :=
          mul_le_mul_of_nonneg_left ((div_le_one har).mpr hle) htot
    _ = rec.fy_total := mul_one _
  rw [modelRecord_of_rate h]
  exact ⟨congrArg some (max_eq_right (sub_nonpos.mpr hraw)), max_eq_left hraw⟩

/-- Witness for C3: the spec's second worked example, modeled rate 5 percent
against the FY2020 actual rate 5.75 percent. -/
theorem C3_clamp_at_or_below_actual_witness :
    rate_for ACTUAL_EFFECTIVE_RATES (2012 + 8) = some (mkRat 575 100) ∧ (0 : ℚ) < 5 ∧
    (5 : ℚ) ≤ mkRat 575 100 ∧ (0 : ℚ) ≤ 1000000 ∧
    ((modelRecord 5 ⟨"Chicago", "INC", 2012 + 8, 1000000⟩).forgone_revenue = some 0 ∧
     (modelRecord 5 ⟨"Chicago", "INC", 2012 + 8, 1000000⟩).modeled_collection = 1000000) :=
  ⟨by decide, by decide, by decide, by decide,
   C3_clamp_at_or_below_actual 5 ⟨"Chicago", "INC", 2012 + 8, 1000000⟩ (mkRat 575 100)
     (by decide) (by decide) (by decide) (by decide)⟩

/-- Claim C7: holding the record fixed, raising the modeled rate never decreases
the modeled collection or the forgone revenue. -/
theorem C7_monotone_in_modeled_rate (rec : Record) (ar r1 r2 : ℚ)
    (h : rate_for ACTUAL_EFFECTIVE_RATES rec.fy = some ar) (h1 : 0 < r1) (h12 : r1 ≤ r2)
    (htot : 0 ≤ rec.fy_total) :
    (modelRecord r1 rec).modeled_collection ≤ (modelRecord r2 rec).modeled_collection ∧
    (modelRecord r1 rec).forgone_revenue.getD 0 ≤ (modelRecord r2 rec).forgone_revenue.getD 0 := by
  have har : 0 < ar := rate_for_pos h
  have hraw : rec.fy_total * (r1 / ar) ≤ rec.fy_total * (r2 / ar) :=
    mul_le_mul_of_nonneg_left ((div_le_div_iff_of_pos_right har).mpr h12) htot
  rw [@modelRecord_of_rate r1 rec ar h, @modelRecord_of_rate r2 rec ar h]
  exact ⟨max_le_max le_rfl hraw, max_le_max (sub_le_sub_right hraw _) le_rfl⟩

/-- Witness for C7 at the worked example, rates 5 and 10. -/
theorem C7_monotone_in_modeled_rate_witness :
    rate_for ACTUAL_EFFECTIVE_RATES (2012 + 8) = some (mkRat 575 100) ∧ (0 : ℚ) < 5 ∧
    (5 : ℚ) ≤ 10 ∧ (0 : ℚ) ≤ 1000000 ∧
    ((modelRecord 5 ⟨"Chicago", "INC", 2012 + 8, 1000000⟩).modeled_collection ≤
        (modelRecord 10 ⟨"Chicago", "INC", 2012 + 8, 1000000⟩).modeled_collection ∧
     (modelRecord 5 ⟨"Chicago", "INC", 2012 + 8, 1000000⟩).forgone_revenue.getD 0 ≤
        (modelRecord 10 ⟨"Chicago", "INC", 2012 + 8, 1000000⟩).forgone_revenue.getD 0) :=
  ⟨by decide, by decide, by decide, by decide,
   C7_monotone_in_modeled_rate ⟨"Chicago", "INC", 2012 + 8, 1000000⟩ (mkRat 575 100) 5 10
     (by decide) (by decide) (by decide) (by decide)⟩

/-! Membership helpers for the filter pipelines. -/

theorem mem_of_mem_inRangeRows {recs : List Row} {lo hi : Nat} {r : Row}
    (h : r ∈ inRangeRows recs lo hi) : r ∈ recs :=
  (List.mem_filter.mp h).1

theorem fy_bounds_of_mem_inRangeRows {recs : List Row} {lo hi : Nat} {r : Row}
    (h : r ∈ inRangeRows recs lo hi) : lo ≤ r.fy ∧ r.fy ≤ hi := by
  have h2 := (List.mem_filter.mp h).2
  simpa using h2

theorem mem_inRangeRows_of {recs : List Row} {lo hi : Nat} {r : Row}
    (hr : r ∈ recs) (h1 : lo ≤ r.fy) (h2 : r.fy ≤ hi) : r ∈ inRangeRows recs lo hi := by
  refine List.mem_filter.mpr ⟨hr, ?_⟩
  simp [h1, h2]

theorem mem_of_mem_muniGroup {l : List Row} {m : String} {r : Row}
    (h : r ∈ muniGroup l m) : r ∈ l :=
  (List.mem_filter.mp h).1

theorem mem_of_mem_yearGroup {l : List Row} {y : Nat} {r : Row}
    (h : r ∈ yearGroup l y) : r ∈ l :=
  (List.mem_filter.mp h).1

theorem mem_model_iff {modeled_rate : ℚ} {recs : List Record} {r : Row} :
    r ∈ model modeled_rate recs ↔ ∃ rec ∈ recs, modelRecord modeled_rate rec = r :=
  List.mem_map

/-- Every element of a sorted list is an element of the original list. -/
theorem mem_sortDescBy {α κ : Type} [LinearOrder κ] {key : α → κ} {l : List α} {x : α} :
    x ∈ sortDescBy key l ↔ x ∈ l :=
  ((List.reverse_perm _).trans (List.perm_insertionSort _ l)).mem_iff

/-- The "All Municipalities" branch of `filter_data`, unfolded. -/
theorem filter_data_all (recs : List Row) (lo hi : Nat) :
    filter_data recs "All Municipalities" lo hi =
      (groupKeys ((inRangeRows recs lo hi).map (·.fy))).map (fun y =>
        ⟨"All Municipalities", y,
         ((yearGroup (inRangeRows recs lo hi) y).map (·.fy_total)).sum,
         rate_for ACTUAL_EFFECTIVE_RATES y,
         ((yearGroup (inRangeRows recs lo hi) y).map (·.modeled_collection)).sum,
         some (optSum ((yearGroup (inRangeRows recs lo hi) y).map (·.forgone_revenue)))⟩) := by
  rfl

/-! Helpers for the stacked-total identity. -/

/-- Pointwise stacked identity for any modeled row. -/
theorem modelRecord_identity (modeled_rate : ℚ) (rec : Record) :
    (modelRecord modeled_rate rec).modeled_collection =
      (modelRecord modeled_rate rec).fy_total
        + (modelRecord modeled_rate rec).forgone_revenue.getD 0 := by
  cases h : rate_for ACTUAL_EFFECTIVE_RATES rec.fy with
  | none => rw [modelRecord_of_no_rate h]; simp
  | some ar => rw [modelRecord_of_rate h]; exact max_eq_add_max_sub _ _

theorem row_identity_of_mem_model {modeled_rate : ℚ} {recs : List Record} {r : Row}
    (hr : r ∈ model modeled_rate recs) :
    r.modeled_collection = r.fy_total + r.forgone_revenue.getD 0 := by
  obtain ⟨rec, -, rfl⟩ := mem_model_iff.mp hr
  exact modelRecord_identity _ _

/-- Summing the stacked identity over any list of rows that satisfy it pointwise. -/
theorem modeled_sum_split : ∀ (l : List Row),
    (∀ r ∈ l, r.modeled_collection = r.fy_total + r.forgone_revenue.getD 0) →
    (l.map (·.modeled_collection)).sum
      = (l.map (·.fy_total)).sum + optSum (l.map (·.forgone_revenue))
  | [], _ => by simp [optSum]
  | r :: t, hl => by
    have hr := hl r (List.mem_cons_self r t)
    have ht := modeled_sum_split t (fun x hx => hl x (List.mem_cons_of_mem _ hx))
    simp only [List.map_cons, List.sum_cons, optSum] at ht ⊢
    rw [hr, ht]
    ring

/-- Claim C9: for every modeled record, `modeled_collection` equals
`actual_total + forgone_revenue` exactly, and the same identity holds for the
whole modeled set, for every per-year "All Municipalities" aggregate row, and
for every per-municipality ranking aggregate. -/
theorem C9_stacked_identity (modeled_rate : ℚ) (recs : List Record) (lo hi : Nat) :
    (∀ rec : Record, (modelRecord modeled_rate rec).modeled_collection
        = (modelRecord modeled_rate rec).fy_total
          + (modelRecord modeled_rate rec).forgone_revenue.getD 0) ∧
    ((model modeled_rate recs).map (·.modeled_collection)).sum
        = ((model modeled_rate recs).map (·.fy_total)).sum
          + optSum ((model modeled_rate recs).map (·.forgone_revenue)) ∧
    (∀ row ∈ filter_data (model modeled_rate recs) "All Municipalities" lo hi,
        row.modeled_collection = row.fy_total + row.forgone_revenue.getD 0) ∧
    (∀ e ∈ muni_totals (model modeled_rate recs) lo hi,
        e.total_modeled = e.total_actual + e.total_forgone) := by
  refine ⟨fun rec => modelRecord_identity _ _,
          modeled_sum_split _ (fun r hr => row_identity_of_mem_model hr), ?_, ?_⟩
  · intro row hrow
    rw [filter_data_all] at hrow
    obtain ⟨y, -, rfl⟩ := List.mem_map.mp hrow
    simp only [Option.getD_some]
    exact modeled_sum_split _ (fun x hx =>
      row_identity_of_mem_model (mem_of_mem_inRangeRows (mem_of_mem_yearGroup hx)))
  · intro e he
    have he2 : e ∈ groupedTotals (inRangeRows (model modeled_rate recs) lo hi) :=
      mem_sortDescBy.mp he
    obtain ⟨m, -, rfl⟩ := List.mem_map.mp he2
    exact modeled_sum_split _ (fun x hx =>
      row_identity_of_mem_model (mem_of_mem_inRangeRows (mem_of_mem_muniGroup hx)))

/-- Witness for C9 at a one-record dataset over the full year range. -/
theorem C9_stacked_identity_witness :
    (∀ rec : Record, (modelRecord 10 rec).modeled_collection
        = (modelRecord 10 rec).fy_total + (modelRecord 10 rec).forgone_revenue.getD 0) ∧
    ((model 10 [⟨"Chicago", "INC", 2012 + 8, 1000000⟩]).map (·.modeled_collection)).sum
        = ((model 10 [⟨"Chicago", "INC", 2012 + 8, 1000000⟩]).map (·.fy_total)).sum
          + optSum ((model 10 [⟨"Chicago", "INC", 2012 + 8, 1000000⟩]).map (·.forgone_revenue)) ∧
    (∀ row ∈ filter_data (model 10 [⟨"Chicago", "INC", 2012 + 8, 1000000⟩])
        "All Municipalities" 2012 2025,
        row.modeled_collection = row.fy_total + row.forgone_revenue.getD 0) ∧
    (∀ e ∈ muni_totals (model 10 [⟨"Chicago", "INC", 2012 + 8, 1000000⟩]) 2012 2025,
        e.total_modeled = e.total_actual + e.total_forgone) :=
  C9_stacked_identity 10 [⟨"Chicago", "INC", 2012 + 8, 1000000⟩] 2012 2025

/-- Counterexample to claim C4: fiscal year 2011 has no rate-table entry, yet
the modeling pass does not fail — it returns a full-length output in which the
record is kept with a missing rate, a missing forgone revenue, and a
`modeled_collection` silently defaulted to the actual total. -/
theorem C4_no_unknownrate_error_counterexample :
    rate_for ACTUAL_EFFECTIVE_RATES 2011 = none ∧
    model 10 [⟨"Springfield", "INC", 2011, 100⟩]
      = [⟨"Springfield", "INC", 2011, 100, none, 100, none⟩] := by
  decide

/-- Claim C4, amended: when a fiscal year has no rate-table entry the modeling
pass does not fail and drops nothing; the affected record is kept, with missing
`actual_rate` and `forgone_revenue` and with `modeled_collection` silently
defaulted to the record's actual total. -/
theorem C4_missing_rate_silent_default (modeled_rate : ℚ) (recs : List Record) :
    (model modeled_rate recs).length = recs.length ∧
    ∀ rec ∈ recs, rate_for ACTUAL_EFFECTIVE_RATES rec.fy = none →
      modelRecord modeled_rate rec =
        ⟨rec.local_government, rec.tax, rec.fy, rec.fy_total, none, rec.fy_total, none⟩ :=
  ⟨by simp [model], fun _ _ h => modelRecord_of_no_rate h⟩

/-- Witness for the amended C4 on the concrete unknown-year record. -/
theorem C4_missing_rate_silent_default_witness :
    (model 10 [⟨"Springfield", "INC", 2011, 100⟩]).length
        = ([⟨"Springfield", "INC", 2011, 100⟩] : List Record).length ∧
    ∀ rec ∈ ([⟨"Springfield", "INC", 2011, 100⟩] : List Record),
      rate_for ACTUAL_EFFECTIVE_RATES rec.fy = none →
      modelRecord 10 rec =
        ⟨rec.local_government, rec.tax, rec.fy, rec.fy_total, none, rec.fy_total, none⟩ :=
  C4_missing_rate_silent_default 10 [⟨"Springfield", "INC", 2011, 100⟩]

/-! Helpers for the snapshot table and its name filter. -/

/-- The regex fragment with no wildcard agrees with anchored case-insensitive
literal matching. -/
theorem reMatchHere_eq_of_no_dot : ∀ (pat s : List Char), '.' ∉ pat →
    reMatchHere pat s = charsStartWith (pat.map Char.toLower) (s.map Char.toLower)
  | [], s, _ => by cases s <;> rfl
  | _ :: _, [], _ => by rfl
  | p :: ps, c :: cs, hp => by
    have hpd : p ≠ '.' := fun h => hp (h ▸ List.mem_cons_self p ps)
    have ih := reMatchHere_eq_of_no_dot ps cs (fun h => hp (List.mem_cons_of_mem _ h))
    simp only [reMatchHere, charsStartWith, List.map_cons, ih]
    rw [decide_eq_false hpd]
    simp

/-- The regex search with no wildcard agrees with case-insensitive substring
containment. -/
theorem reSearch_eq_of_no_dot : ∀ (pat s : List Char), '.' ∉ pat →
    reSearch pat s = charsContain (pat.map Char.toLower) (s.map Char.toLower)
  | pat, [], hp => by
    simp only [reSearch, charsContain, List.map_nil]
    exact reMatchHere_eq_of_no_dot pat [] hp
  | pat, c :: cs, hp => by
    simp only [reSearch, charsContain, List.map_cons]
    rw [reMatchHere_eq_of_no_dot pat (c :: cs) hp, reSearch_eq_of_no_dot pat cs hp]
    simp

/-- On wildcard-free filter strings the code's regex filter is exactly the
spec's case-insensitive substring filter. -/
theorem strContainsCI_eq_substrCI {s pat : String} (hp : '.' ∉ pat.toList) :
    strContainsCI s pat = substrCI s pat :=
  reSearch_eq_of_no_dot _ _ hp

/-- Permutation property of the descending sort. -/
theorem sortDescBy_perm {α κ : Type} [LinearOrder κ] (key : α → κ) (l : List α) :
    (sortDescBy key l).Perm l :=
  (List.reverse_perm _).trans (List.perm_insertionSort _ l)

/-- Sortedness of the descending sort. -/
theorem sortDescBy_sorted {α κ : Type} [LinearOrder κ] (key : α → κ) (l : List α) :
    List.Sorted (fun a b => key b ≤ key a) (sortDescBy key l) := by
  haveI : IsTotal α (fun a b => key a ≤ key b) := ⟨fun a b => le_total (key a) (key b)⟩
  haveI : IsTrans α (fun a b => key a ≤ key b) := ⟨fun _ _ _ hab hbc => le_trans hab hbc⟩
  unfold sortDescBy
  rw [List.Sorted, List.pairwise_reverse]
  exact List.sorted_insertionSort _ l

/-- Counterexample to claim C10: with filter string "a.b" the snapshot keeps
the municipality "AXB", whose name does not contain "a.b" as a substring —
pandas `str.contains` treats the filter as a regular expression. -/
theorem C10_regex_not_substring_counterexample :
    (⟨"AXB", "INC", 2020, 100, some (mkRat 575 100), 100, some 0⟩ : Row) ∈
      tab_table [⟨"AXB", "INC", 2020, 100, some (mkRat 575 100), 100, some 0⟩] 2020 "a.b" ∧
    substrCI "AXB" "a.b" = false := by
  decide

/-- Claim C10, amended: the snapshot keeps exactly the records of the selected
year whose municipality name matches the filter as a case-insensitive regular
expression; for filter strings free of regex metacharacters that is exactly
case-insensitive substring containment — all such records and no others, all
records of the year when the filter is empty — and the result is sorted
descending by forgone revenue (missing values last). -/
theorem C10_snapshot_filter_and_sort (recs : List Row) (year : Nat) (flt : String)
    (hp : ∀ c ∈ flt.toList, c ∉ regexMetachars) :
    (tab_table recs year flt).Perm
        (recs.filter (fun r => decide (r.fy = year) &&
          (flt == "" || substrCI r.local_government flt))) ∧
    List.Sorted (fun a b => forgKey b ≤ forgKey a) (tab_table recs year flt) := by
  have hdot : '.' ∉ flt.toList := fun hd => (hp '.' hd) (by decide)
  refine ⟨?_, sortDescBy_sorted _ _⟩
  unfold tab_table
  refine (sortDescBy_perm _ _).trans ?_
  by_cases hflt : flt = ""
  · subst hflt
    rw [if_pos rfl]
    refine List.Perm.of_eq (List.filter_congr ?_)
    intro r _
    simp
  · rw [if_neg hflt, List.filter_filter]
    refine List.Perm.of_eq (List.filter_congr ?_)
    intro r _
    rw [strContainsCI_eq_substrCI hdot, beq_eq_false_iff_ne.mpr hflt]
    simp [Bool.and_comm]

/-- Witness for the amended C10: a metacharacter-free filter on a one-row
snapshot. -/
theorem C10_snapshot_filter_and_sort_witness :
    (∀ c ∈ ("ield".toList), c ∉ regexMetachars) ∧
    ((tab_table [⟨"Springfield", "INC", 2020, 100, some (mkRat 575 100), 120, some 20⟩]
          2020 "ield").Perm
        (([⟨"Springfield", "INC", 2020, 100, some (mkRat 575 100), 120, some 20⟩] :
            List Row).filter (fun r => decide (r.fy = 2020) &&
          (("ield" : String) == "" || substrCI r.local_government "ield"))) ∧
     List.Sorted (fun a b => forgKey b ≤ forgKey a)
        (tab_table [⟨"Springfield", "INC", 2020, 100, some (mkRat 575 100), 120, some 20⟩]
          2020 "ield")) :=
  ⟨by decide,
   C10_snapshot_filter_and_sort
     [⟨"Springfield", "INC", 2020, 100, some (mkRat 575 100), 120, some 20⟩] 2020 "ield"
     (by decide)⟩

/-- Sums that skip missing values are invariant under permutation. -/
theorem optSum_perm {l1 l2 : List (Option ℚ)} (h : l1.Perm l2) : optSum l1 = optSum l2 :=
  (h.map _).sum_eq

/-- Claim C8: on any filtered selection, the impact summary yields the forgone
revenue of a most-recent-year row, the sums over the rows of the (at most) 3
and 5 most recent years — all available rows when fewer are present, with no
error and no padding — and the sum over the whole selection. -/
theorem C8_impact_summary (d : List FRow) (hne : d ≠ []) :
    (∃ r ∈ d, (∀ x ∈ d, x.fy ≤ r.fy) ∧ impact_1yr d = r.forgone_revenue) ∧
    impact_3yr d = optSum (((sorted_desc_fy d).take 3).map (·.forgone_revenue)) ∧
    impact_5yr d = optSum (((sorted_desc_fy d).take 5).map (·.forgone_revenue)) ∧
    (d.length < 3 → impact_3yr d = optSum (d.map (·.forgone_revenue))) ∧
    (d.length < 5 → impact_5yr d = optSum (d.map (·.forgone_revenue))) ∧
    (∀ a ∈ (sorted_desc_fy d).take 3, ∀ b ∈ (sorted_desc_fy d).drop 3, b.fy ≤ a.fy) ∧
    (∀ a ∈ (sorted_desc_fy d).take 5, ∀ b ∈ (sorted_desc_fy d).drop 5, b.fy ≤ a.fy) ∧
    impact_total d = optSum (d.map (·.forgone_revenue)) := by
  have hperm : (sorted_desc_fy d).Perm d := sortDescBy_perm _ _
  have hsorted : List.Sorted (fun a b : FRow => b.fy ≤ a.fy) (sorted_desc_fy d) :=
    sortDescBy_sorted _ _
  have hlen : (sorted_desc_fy d).length = d.length := hperm.length_eq
  have h3 : impact_3yr d = optSum (((sorted_desc_fy d).take 3).map (·.forgone_revenue)) := by
    unfold impact_3yr
    by_cases h : 3 ≤ (sorted_desc_fy d).length
    · rw [if_pos h]
    · rw [if_neg h, List.take_of_length_le (by omega)]
  have h5 : impact_5yr d = optSum (((sorted_desc_fy d).take 5).map (·.forgone_revenue)) := by
    unfold impact_5yr
    by_cases h : 5 ≤ (sorted_desc_fy d).length
    · rw [if_pos h]
    · rw [if_neg h, List.take_of_length_le (by omega)]
  refine ⟨?_, h3, h5, ?_, ?_, ?_, ?_, rfl⟩
  · cases hs : sorted_desc_fy d with
    | nil =>
      exact absurd ((hs ▸ hperm).symm.eq_nil) hne
    | cons r t =>
      have hrs : List.Sorted (fun a b : FRow => b.fy ≤ a.fy) (r :: t) := hs ▸ hsorted
      refine ⟨r, hperm.mem_iff.mp (hs ▸ List.mem_cons_self r t), ?_, ?_⟩
      · intro x hx
        have hxs : x ∈ r :: t := hs ▸ hperm.mem_iff.mpr hx
        rcases List.mem_cons.mp hxs with rfl | hxt
        · exact le_refl _
        · exact List.rel_of_sorted_cons hrs x hxt
      · simp [impact_1yr, hs]
  · intro hl
    rw [h3, List.take_of_length_le (by omega)]
    exact optSum_perm (hperm.map _)
  · intro hl
    rw [h5, List.take_of_length_le (by omega)]
    exact optSum_perm (hperm.map _)
  · intro a ha b hb
    exact hsorted.rel_of_mem_take_of_mem_drop ha hb
  · intro a ha b hb
    exact hsorted.rel_of_mem_take_of_mem_drop ha hb

/-- Witness for C8 on a concrete two-year selection (fewer than 3 years). -/
theorem C8_impact_summary_witness :
    ([⟨"All Municipalities", 2019, 100, some 6, 120, some 20⟩,
      ⟨"All Municipalities", 2020, 200, some 6, 250, some 50⟩] : List FRow) ≠ [] ∧
    ((∃ r ∈ ([⟨"All Municipalities", 2019, 100, some 6, 120, some 20⟩,
        ⟨"All Municipalities", 2020, 200, some 6, 250, some 50⟩] : List FRow),
        (∀ x ∈ ([⟨"All Municipalities", 2019, 100, some 6, 120, some 20⟩,
            ⟨"All Municipalities", 2020, 200, some 6, 250, some 50⟩] : List FRow), x.fy ≤ r.fy) ∧
        impact_1yr [⟨"All Municipalities", 2019, 100, some 6, 120, some 20⟩,
            ⟨"All Municipalities", 2020, 200, some 6, 250, some 50⟩] = r.forgone_revenue) ∧
     impact_3yr [⟨"All Municipalities", 2019, 100, some 6, 120, some 20⟩,
         ⟨"All Municipalities", 2020, 200, some 6, 250, some 50⟩]
        = optSum (((sorted_desc_fy [⟨"All Municipalities", 2019, 100, some 6, 120, some 20⟩,
            ⟨"All Municipalities", 2020, 200, some 6, 250, some 50⟩]).take 3).map
            (·.forgone_revenue)) ∧
     impact_5yr [⟨"All Municipalities", 2019, 100, some 6, 120, some 20⟩,
         ⟨"All Municipalities", 2020, 200, some 6, 250, some 50⟩]
        = optSum (((sorted_desc_fy [⟨"All Municipalities", 2019, 100, some 6, 120, some 20⟩,
            ⟨"All Municipalities", 2020, 200, some 6, 250, some 50⟩]).take 5).map
            (·.forgone_revenue)) ∧
     (([⟨"All Municipalities", 2019, 100, some 6, 120, some 20⟩,
         ⟨"All Municipalities", 2020, 200, some 6, 250, some 50⟩] : List FRow).length < 3 →
        impact_3yr [⟨"All Municipalities", 2019, 100, some 6, 120, some 20⟩,
            ⟨"All Municipalities", 2020, 200, some 6, 250, some 50⟩]
          = optSum (([⟨"All Municipalities", 2019, 100, some 6, 120, some 20⟩,
              ⟨"All Municipalities", 2020, 200, some 6, 250, some 50⟩] : List FRow).map
              (·.forgone_revenue))) ∧
     (([⟨"All Municipalities", 2019, 100, some 6, 120, some 20⟩,
         ⟨"All Municipalities", 2020, 200, some 6, 250, some 50⟩] : List FRow).length < 5 →
        impact_5yr [⟨"All Municipalities", 2019, 100, some 6, 120, some 20⟩,
            ⟨"All Municipalities", 2020, 200, some 6, 250, some 50⟩]
          = optSum (([⟨"All Municipalities", 2019, 100, some 6, 120, some 20⟩,
              ⟨"All Municipalities", 2020, 200, some 6, 250, some 50⟩] : List FRow).map
              (·.forgone_revenue))) ∧
     (∀ a ∈ (sorted_desc_fy [⟨"All Municipalities", 2019, 100, some 6, 120, some 20⟩,
          ⟨"All Municipalities", 2020, 200, some 6, 250, some 50⟩]).take 3,
        ∀ b ∈ (sorted_desc_fy [⟨"All Municipalities", 2019, 100, some 6, 120, some 20⟩,
          ⟨"All Municipalities", 2020, 200, some 6, 250, some 50⟩]).drop 3, b.fy ≤ a.fy) ∧
     (∀ a ∈ (sorted_desc_fy [⟨"All Municipalities", 2019, 100, some 6, 120, some 20⟩,
          ⟨"All Municipalities", 2020, 200, some 6, 250, some 50⟩]).take 5,
        ∀ b ∈ (sorted_desc_fy [⟨"All Municipalities", 2019, 100, some 6, 120, some 20⟩,
          ⟨"All Municipalities", 2020, 200, some 6, 250, some 50⟩]).drop 5, b.fy ≤ a.fy) ∧
     impact_total [⟨"All Municipalities", 2019, 100, some 6, 120, some 20⟩,
         ⟨"All Municipalities", 2020, 200, some 6, 250, some 50⟩]
        = optSum (([⟨"All Municipalities", 2019, 100, some 6, 120, some 20⟩,
            ⟨"All Municipalities", 2020, 200, some 6, 250, some 50⟩] : List FRow).map
            (·.forgone_revenue))) :=
  ⟨by decide,
   C8_impact_summary [⟨"All Municipalities", 2019, 100, some 6, 120, some 20⟩,
     ⟨"All Municipalities", 2020, 200, some 6, 250, some 50⟩] (by decide)⟩

/-! Grouping helpers. -/

theorem mem_groupKeys {κ : Type} [LinearOrder κ] [DecidableEq κ] {l : List κ} {k : κ} :
    k ∈ groupKeys l ↔ k ∈ l := by
  unfold groupKeys
  rw [List.mem_dedup]
  exact (List.perm_insertionSort _ l).mem_iff

theorem nodup_groupKeys {κ : Type} [LinearOrder κ] [DecidableEq κ] (l : List κ) :
    (groupKeys l).Nodup :=
  List.nodup_dedup _

/-- Splitting a sum over a list by a boolean predicate. -/
theorem sum_map_filter_split (p : Row → Bool) (f : Row → ℚ) : ∀ (l : List Row),
    ((l.filter p).map f).sum + ((l.filter (fun x => !(p x))).map f).sum = (l.map f).sum
  | [] => by simp
  | r :: t => by
    have ih := sum_map_filter_split p f t
    by_cases h : p r = true <;>
      simp only [List.filter_cons, h, Bool.not_true, Bool.not_false, if_true, if_false,
        Bool.false_eq_true, List.map_cons, List.sum_cons] <;>
      linarith

/-- Summing per-municipality group sums over a duplicate-free covering key list
recovers the sum over the whole list. -/
theorem sum_over_muniGroups (f : Row → ℚ) : ∀ (keys : List String) (l : List Row),
    keys.Nodup → (∀ r ∈ l, r.local_government ∈ keys) →
    (keys.map (fun m => ((muniGroup l m).map f).sum)).sum = (l.map f).sum
  | [], l, _, hcov => by
    cases l with
    | nil => simp
    | cons r t => exact absurd (hcov r (List.mem_cons_self r t)) (List.not_mem_nil _)
  | m :: ks, l, hnd, hcov => by
    obtain ⟨hm, hks⟩ := List.nodup_cons.mp hnd
    have hcov2 : ∀ r ∈ l.filter (fun r => !(decide (r.local_government = m))),
        r.local_government ∈ ks := by
      intro r hr
      obtain ⟨hrl, hrp⟩ := List.mem_filter.mp hr
      have hne : r.local_government ≠ m := by simpa using hrp
      rcases List.mem_cons.mp (hcov r hrl) with h | h
      · exact absurd h hne
      · exact h
    have ih := sum_over_muniGroups f ks (l.filter (fun r => !(decide (r.local_government = m))))
      hks hcov2
    have hgroups : ∀ k ∈ ks,
        muniGroup (l.filter (fun r => !(decide (r.local_government = m)))) k = muniGroup l k := by
      intro k hk
      have hkm : k ≠ m := fun h => hm (h ▸ hk)
      unfold muniGroup
      rw [List.filter_filter]
      refine List.filter_congr ?_
      intro r _
      by_cases h : r.local_government = k
      · simp [h, hkm]
      · simp [h]
    have hmap : ks.map (fun k =>
          ((muniGroup (l.filter (fun r => !(decide (r.local_government = m)))) k).map f).sum)
        = ks.map (fun k => ((muniGroup l k).map f).sum) :=
      List.map_congr_left (fun k hk => by rw [hgroups k hk])
    calc ((m :: ks).map (fun k => ((muniGroup l k).map f).sum)).sum
        = ((muniGroup l m).map f).sum
            + (ks.map (fun k => ((muniGroup l k).map f).sum)).sum := by
          simp [List.map_cons, List.sum_cons]
      _ = ((muniGroup l m).map f).sum
            + ((l.filter (fun r => !(decide (r.local_government = m)))).map f).sum := by
          rw [← hmap, ih]
      _ = (l.map f).sum := sum_map_filter_split _ f l

/-- Rewriting a skipping sum over a projected column as a plain sum. -/
theorem optSum_map {α : Type} (g : α → Option ℚ) (l : List α) :
    optSum (l.map g) = (l.map (fun x => (g x).getD 0)).sum := by
  unfold optSum
  rw [List.map_map]
  rfl

/-- Claim C5, amended: the Top-N ranking sums the actual, modeled and forgone
amounts per municipality over the year range (one entry per municipality
present), sorts the entries descending by summed forgone revenue — the
relative order of entries with equal summed forgone revenue is not the
original grouping order and is not guaranteed, since pandas reverses an
ascending argsort whose default quicksort kind is unstable — truncates to the
first N with ranks counted from 1, and the grand totals are the sums over all
municipalities in range, not just the top N. -/
theorem C5_top_ranking (recs : List Row) (lo hi n : Nat) (hn : 0 < n) :
    (∀ e ∈ muni_totals recs lo hi,
        e.total_actual
            = ((muniGroup (inRangeRows recs lo hi) e.local_government).map (·.fy_total)).sum ∧
        e.total_modeled
            = ((muniGroup (inRangeRows recs lo hi) e.local_government).map
                (·.modeled_collection)).sum ∧
        e.total_forgone
            = optSum ((muniGroup (inRangeRows recs lo hi) e.local_government).map
                (·.forgone_revenue))) ∧
    (∀ r ∈ inRangeRows recs lo hi,
        ∃ e ∈ muni_totals recs lo hi, e.local_government = r.local_government) ∧
    List.Sorted (fun a b => b.total_forgone ≤ a.total_forgone) (muni_totals recs lo hi) ∧
    (display_top recs lo hi n).map Prod.snd = (muni_totals recs lo hi).take n ∧
    (display_top recs lo hi n).map Prod.fst
        = List.range' 1 (min n (muni_totals recs lo hi).length) ∧
    grand_actual recs lo hi = ((inRangeRows recs lo hi).map (·.fy_total)).sum ∧
    grand_modeled recs lo hi = ((inRangeRows recs lo hi).map (·.modeled_collection)).sum ∧
    grand_total recs lo hi = optSum ((inRangeRows recs lo hi).map (·.forgone_revenue)) := by
  have hperm : (muni_totals recs lo hi).Perm (groupedTotals (inRangeRows recs lo hi)) :=
    sortDescBy_perm _ _
  have hnd : (groupKeys ((inRangeRows recs lo hi).map (·.local_government))).Nodup :=
    nodup_groupKeys _
  have hcov : ∀ r ∈ inRangeRows recs lo hi,
      r.local_government ∈ groupKeys ((inRangeRows recs lo hi).map (·.local_government)) :=
    fun r hr => mem_groupKeys.mpr (List.mem_map_of_mem _ hr)
  refine ⟨?_, ?_, sortDescBy_sorted _ _, ?_, ?_, ?_, ?_, ?_⟩
  · intro e he
    obtain ⟨m, -, rfl⟩ := List.mem_map.mp (mem_sortDescBy.mp he)
    exact ⟨rfl, rfl, rfl⟩
  · intro r hr
    exact ⟨_, mem_sortDescBy.mpr (List.mem_map.mpr ⟨r.local_government, hcov r hr, rfl⟩), rfl⟩
  · unfold display_top
    exact List.map_snd_zip _ _ (by rw [List.length_range'])
  · unfold display_top
    rw [List.map_fst_zip _ _ (by rw [List.length_range'])]
    unfold top_munis
    rw [List.length_take]
  · unfold grand_actual
    rw [(hperm.map (·.total_actual)).sum_eq]
    unfold groupedTotals
    rw [List.map_map]
    exact sum_over_muniGroups _ _ _ hnd hcov
  · unfold grand_modeled
    rw [(hperm.map (·.total_modeled)).sum_eq]
    unfold groupedTotals
    rw [List.map_map]
    exact sum_over_muniGroups _ _ _ hnd hcov
  · unfold grand_total
    rw [(hperm.map (·.total_forgone)).sum_eq]
    unfold groupedTotals
    rw [List.map_map, optSum_map]
    simp only [Function.comp_def]
    rw [List.map_congr_left (fun m _ => optSum_map (·.forgone_revenue)
      (muniGroup (inRangeRows recs lo hi) m))]
    exact sum_over_muniGroups _ _ _ hnd hcov

/-- Witness for C5 on the spec's Top-N example: two municipalities with forgone
revenues 500 and 1500. -/
theorem C5_top_ranking_witness :
    0 < 3 ∧
    ((∀ e ∈ muni_totals [⟨"A", "INC", 2020, 1000, some 6, 1500, some 500⟩,
          ⟨"B", "INC", 2020, 3000, some 6, 4500, some 1500⟩] 2012 2025,
        e.total_actual
            = ((muniGroup (inRangeRows [⟨"A", "INC", 2020, 1000, some 6, 1500, some 500⟩,
                ⟨"B", "INC", 2020, 3000, some 6, 4500, some 1500⟩] 2012 2025)
                e.local_government).map (·.fy_total)).sum ∧
        e.total_modeled
            = ((muniGroup (inRangeRows [⟨"A", "INC", 2020, 1000, some 6, 1500, some 500⟩,
                ⟨"B", "INC", 2020, 3000, some 6, 4500, some 1500⟩] 2012 2025)
                e.local_government).map (·.modeled_collection)).sum ∧
        e.total_forgone
            = optSum ((muniGroup (inRangeRows [⟨"A", "INC", 2020, 1000, some 6, 1500, some 500⟩,
                ⟨"B", "INC", 2020, 3000, some 6, 4500, some 1500⟩] 2012 2025)
                e.local_government).map (·.forgone_revenue))) ∧
     (∀ r ∈ inRangeRows [⟨"A", "INC", 2020, 1000, some 6, 1500, some 500⟩,
          ⟨"B", "INC", 2020, 3000, some 6, 4500, some 1500⟩] 2012 2025,
        ∃ e ∈ muni_totals [⟨"A", "INC", 2020, 1000, some 6, 1500, some 500⟩,
          ⟨"B", "INC", 2020, 3000, some 6, 4500, some 1500⟩] 2012 2025,
          e.local_government = r.local_government) ∧
     List.Sorted (fun a b => b.total_forgone ≤ a.total_forgone)
        (muni_totals [⟨"A", "INC", 2020, 1000, some 6, 1500, some 500⟩,
          ⟨"B", "INC", 2020, 3000, some 6, 4500, some 1500⟩] 2012 2025) ∧
     (display_top [⟨"A", "INC", 2020, 1000, some 6, 1500, some 500⟩,
          ⟨"B", "INC", 2020, 3000, some 6, 4500, some 1500⟩] 2012 2025 3).map Prod.snd
        = (muni_totals [⟨"A", "INC", 2020, 1000, some 6, 1500, some 500⟩,
          ⟨"B", "INC", 2020, 3000, some 6, 4500, some 1500⟩] 2012 2025).take 3 ∧
     (display_top [⟨"A", "INC", 2020, 1000, some 6, 1500, some 500⟩,
          ⟨"B", "INC", 2020, 3000, some 6, 4500, some 1500⟩] 2012 2025 3).map Prod.fst
        = List.range' 1 (min 3 (muni_totals [⟨"A", "INC", 2020, 1000, some 6, 1500, some 500⟩,
          ⟨"B", "INC", 2020, 3000, some 6, 4500, some 1500⟩] 2012 2025).length) ∧
     grand_actual [⟨"A", "INC", 2020, 1000, some 6, 1500, some 500⟩,
          ⟨"B", "INC", 2020, 3000, some 6, 4500, some 1500⟩] 2012 2025
        = ((inRangeRows [⟨"A", "INC", 2020, 1000, some 6, 1500, some 500⟩,
          ⟨"B", "INC", 2020, 3000, some 6, 4500, some 1500⟩] 2012 2025).map (·.fy_total)).sum ∧
     grand_modeled [⟨"A", "INC", 2020, 1000, some 6, 1500, some 500⟩,
          ⟨"B", "INC", 2020, 3000, some 6, 4500, some 1500⟩] 2012 2025
        = ((inRangeRows [⟨"A", "INC", 2020, 1000, some 6, 1500, some 500⟩,
          ⟨"B", "INC", 2020, 3000, some 6, 4500, some 1500⟩] 2012 2025).map
            (·.modeled_collection)).sum ∧
     grand_total [⟨"A", "INC", 2020, 1000, some 6, 1500, some 500⟩,
          ⟨"B", "INC", 2020, 3000, some 6, 4500, some 1500⟩] 2012 2025
        = optSum ((inRangeRows [⟨"A", "INC", 2020, 1000, some 6, 1500, some 500⟩,
          ⟨"B", "INC", 2020, 3000, some 6, 4500, some 1500⟩] 2012 2025).map
            (·.forgone_revenue))) :=
  ⟨by decide,
   C5_top_ranking [⟨"A", "INC", 2020, 1000, some 6, 1500, some 500⟩,
     ⟨"B", "INC", 2020, 3000, some 6, 4500, some 1500⟩] 2012 2025 3 (by decide)⟩

/-- Claim C6: every row of the "All Municipalities" aggregate carries the
sentinel label, an `actual_rate` re-derived from the rate table for its year
(not averaged), and the three monetary fields equal to the sums over that
year's rows — equivalently, to the sum over all municipalities of their
per-municipality sums for that year; every in-range year present in the data
gets such a row. -/
theorem C6_all_municipalities_aggregate (recs : List Row) (lo hi : Nat) :
    (∀ row ∈ filter_data recs "All Municipalities" lo hi,
        row.local_government = "All Municipalities" ∧
        row.actual_rate = rate_for ACTUAL_EFFECTIVE_RATES row.fy ∧
        (lo ≤ row.fy ∧ row.fy ≤ hi) ∧
        row.fy_total = ((yearGroup (inRangeRows recs lo hi) row.fy).map (·.fy_total)).sum ∧
        row.modeled_collection
            = ((yearGroup (inRangeRows recs lo hi) row.fy).map (·.modeled_collection)).sum ∧
        row.forgone_revenue
            = some (optSum ((yearGroup (inRangeRows recs lo hi) row.fy).map
                (·.forgone_revenue))) ∧
        row.fy_total
            = ((groupKeys ((yearGroup (inRangeRows recs lo hi) row.fy).map
                  (·.local_government))).map
                (fun m => ((muniGroup (yearGroup (inRangeRows recs lo hi) row.fy) m).map
                  (·.fy_total)).sum)).sum ∧
        row.modeled_collection
            = ((groupKeys ((yearGroup (inRangeRows recs lo hi) row.fy).map
                  (·.local_government))).map
                (fun m => ((muniGroup (yearGroup (inRangeRows recs lo hi) row.fy) m).map
                  (·.modeled_collection)).sum)).sum ∧
        row.forgone_revenue
            = some (((groupKeys ((yearGroup (inRangeRows recs lo hi) row.fy).map
                  (·.local_government))).map
                (fun m => optSum ((muniGroup (yearGroup (inRangeRows recs lo hi) row.fy) m).map
                  (·.forgone_revenue)))).sum)) ∧
    (∀ y : Nat, lo ≤ y → y ≤ hi → (∃ r ∈ recs, r.fy = y) →
        ∃ row ∈ filter_data recs "All Municipalities" lo hi, row.fy = y) := by
  constructor
  · intro row hrow
    rw [filter_data_all] at hrow
    obtain ⟨y, hy, rfl⟩ := List.mem_map.mp hrow
    have hynd : (groupKeys ((yearGroup (inRangeRows recs lo hi) y).map
        (·.local_government))).Nodup := nodup_groupKeys _
    have hycov : ∀ r ∈ yearGroup (inRangeRows recs lo hi) y,
        r.local_government ∈ groupKeys ((yearGroup (inRangeRows recs lo hi) y).map
          (·.local_government)) :=
      fun r hr => mem_groupKeys.mpr (List.mem_map_of_mem _ hr)
    obtain ⟨r, hrF, hrfy⟩ := List.mem_map.mp (mem_groupKeys.mp hy)
    have hbounds := fy_bounds_of_mem_inRangeRows hrF
    refine ⟨rfl, rfl, ?_, rfl, rfl, rfl, ?_, ?_, ?_⟩
    · exact hrfy ▸ hbounds
    · exact (sum_over_muniGroups (·.fy_total) _ _ hynd hycov).symm
    · exact (sum_over_muniGroups (·.modeled_collection) _ _ hynd hycov).symm
    · refine congrArg some ?_
      rw [optSum_map]
      rw [List.map_congr_left (fun m _ => optSum_map (·.forgone_revenue)
        (muniGroup (yearGroup (inRangeRows recs lo hi) y) m))]
      exact (sum_over_muniGroups (fun r => r.forgone_revenue.getD 0) _ _ hynd hycov).symm
  · rintro y h1 h2 ⟨r, hr, hfy⟩
    have hrF : r ∈ inRangeRows recs lo hi :=
      mem_inRangeRows_of hr (by rw [hfy]; exact h1) (by rw [hfy]; exact h2)
    have hk : y ∈ groupKeys ((inRangeRows recs lo hi).map (·.fy)) :=
      mem_groupKeys.mpr (List.mem_map.mpr ⟨r, hrF, hfy⟩)
    refine ⟨⟨"All Municipalities", y,
       ((yearGroup (inRangeRows recs lo hi) y).map (·.fy_total)).sum,
       rate_for ACTUAL_EFFECTIVE_RATES y,
       ((yearGroup (inRangeRows recs lo hi) y).map (·.modeled_collection)).sum,
       some (optSum ((yearGroup (inRangeRows recs lo hi) y).map (·.forgone_revenue)))⟩,
      ?_, rfl⟩
    rw [filter_data_all]
    exact List.mem_map.mpr ⟨y, hk, rfl⟩

/-- Witness for C6 on a concrete two-municipality, one-year dataset. -/
theorem C6_all_municipalities_aggregate_witness :
    (∀ row ∈ filter_data [⟨"A", "INC", 2020, 1000, some 6, 1500, some 500⟩,
      ⟨"B", "INC", 2020, 3000, some 6, 4500, some 1500⟩] "All Municipalities" 2012 2025,
        row.local_government = "All Municipalities" ∧
        row.actual_rate = rate_for ACTUAL_EFFECTIVE_RATES row.fy ∧
        (2012 ≤ row.fy ∧ row.fy ≤ 2025) ∧
        row.fy_total = ((yearGroup (inRangeRows [⟨"A", "INC", 2020, 1000, some 6, 1500, some 500⟩,
      ⟨"B", "INC", 2020, 3000, some 6, 4500, some 1500⟩] 2012 2025) row.fy).map (·.fy_total)).sum ∧
        row.modeled_collection
            = ((yearGroup (inRangeRows [⟨"A", "INC", 2020, 1000, some 6, 1500, some 500⟩,
      ⟨"B", "INC", 2020, 3000, some 6, 4500, some 1500⟩] 2012 2025) row.fy).map (·.modeled_collection)).sum ∧
        row.forgone_revenue
            = some (optSum ((yearGroup (inRangeRows [⟨"A", "INC", 2020, 1000, some 6, 1500, some 500⟩,
      ⟨"B", "INC", 2020, 3000, some 6, 4500, some 1500⟩] 2012 2025) row.fy).map
                (·.forgone_revenue))) ∧
        row.fy_total
            = ((groupKeys ((yearGroup (inRangeRows [⟨"A", "INC", 2020, 1000, some 6, 1500, some 500⟩,
      ⟨"B", "INC", 2020, 3000, some 6, 4500, some 1500⟩] 2012 2025) row.fy).map
                  (·.local_government))).map
                (fun m => ((muniGroup (yearGroup (inRangeRows [⟨"A", "INC", 2020, 1000, some 6, 1500, some 500⟩,
      ⟨"B", "INC", 2020, 3000, some 6, 4500, some 1500⟩] 2012 2025) row.fy) m).map
                  (·.fy_total)).sum)).sum ∧
        row.modeled_collection
            = ((groupKeys ((yearGroup (inRangeRows [⟨"A", "INC", 2020, 1000, some 6, 1500, some 500⟩,
      ⟨"B", "INC", 2020, 3000, some 6, 4500, some 1500⟩] 2012 2025) row.fy).map
                  (·.local_government))).map
                (fun m => ((muniGroup (yearGroup (inRangeRows [⟨"A", "INC", 2020, 1000, some 6, 1500, some 500⟩,
      ⟨"B", "INC", 2020, 3000, some 6, 4500, some 1500⟩] 2012 2025) row.fy) m).map
                  (·.modeled_collection)).sum)).sum ∧
        row.forgone_revenue
            = some (((groupKeys ((yearGroup (inRangeRows [⟨"A", "INC", 2020, 1000, some 6, 1500, some 500⟩,
      ⟨"B", "INC", 2020, 3000, some 6, 4500, some 1500⟩] 2012 2025) row.fy).map
                  (·.local_government))).map
                (fun m => optSum ((muniGroup (yearGroup (inRangeRows [⟨"A", "INC", 2020, 1000, some 6, 1500, some 500⟩,
      ⟨"B", "INC", 2020, 3000, some 6, 4500, some 1500⟩] 2012 2025) row.fy) m).map
                  (·.forgone_revenue)))).sum)) ∧
    (∀ y : Nat, 2012 ≤ y → y ≤ 2025 → (∃ r ∈ ([⟨"A", "INC", 2020, 1000, some 6, 1500, some 500⟩,
      ⟨"B", "INC", 2020, 3000, some 6, 4500, some 1500⟩] : List Row), r.fy = y) →
        ∃ row ∈ filter_data [⟨"A", "INC", 2020, 1000, some 6, 1500, some 500⟩,
      ⟨"B", "INC", 2020, 3000, some 6, 4500, some 1500⟩] "All Municipalities" 2012 2025, row.fy = y) :=
  C6_all_municipalities_aggregate [⟨"A", "INC", 2020, 1000, some 6, 1500, some 500⟩,
      ⟨"B", "INC", 2020, 3000, some 6, 4500, some 1500⟩] 2012 2025

/-- Counterexample to claim C5's tie-break statement: two municipalities "A" and
"B" with equal summed forgone revenue group in the order ["A", "B"], but the
descending sort of line 362 — the reverse of an ascending argsort — emits them
as ["B", "A"], so ties are not broken by the original grouping order. -/
theorem C5_tie_order_counterexample :
    (groupedTotals (inRangeRows [⟨"A", "INC", 2020, 1000, some 6, 1500, some 500⟩,
        ⟨"B", "INC", 2020, 3000, some 6, 4500, some 500⟩] 2012 2025)).map (·.local_government)
      = ["A", "B"] ∧
    (muni_totals [⟨"A", "INC", 2020, 1000, some 6, 1500, some 500⟩,
        ⟨"B", "INC", 2020, 3000, some 6, 4500, some 500⟩] 2012 2025).map (·.local_government)
      = ["B", "A"] ∧
    ¬ (∀ a b : MuniTotal, a.total_forgone = b.total_forgone →
        [a, b].Sublist (groupedTotals (inRangeRows
          [⟨"A", "INC", 2020, 1000, some 6, 1500, some 500⟩,
           ⟨"B", "INC", 2020, 3000, some 6, 4500, some 500⟩] 2012 2025)) →
        [a, b].Sublist (muni_totals [⟨"A", "INC", 2020, 1000, some 6, 1500, some 500⟩,
           ⟨"B", "INC", 2020, 3000, some 6, 4500, some 500⟩] 2012 2025)) := by
  have hAB : ("A" : String) ≤ "B" := by
    rw [String.le_iff_toList_le]; decide
  have hA : muniGroup (inRangeRows [⟨"A", "INC", 2020, 1000, some 6, 1500, some 500⟩,
      ⟨"B", "INC", 2020, 3000, some 6, 4500, some 500⟩] 2012 2025) "A"
      = [⟨"A", "INC", 2020, 1000, some 6, 1500, some 500⟩] := by decide
  have hB : muniGroup (inRangeRows [⟨"A", "INC", 2020, 1000, some 6, 1500, some 500⟩,
      ⟨"B", "INC", 2020, 3000, some 6, 4500, some 500⟩] 2012 2025) "B"
      = [⟨"B", "INC", 2020, 3000, some 6, 4500, some 500⟩] := by decide
  have hmapped : (inRangeRows [⟨"A", "INC", 2020, 1000, some 6, 1500, some 500⟩,
      ⟨"B", "INC", 2020, 3000, some 6, 4500, some 500⟩] 2012 2025).map (·.local_government)
      = ["A", "B"] := by decide
  have hkeys : groupKeys ((inRangeRows [⟨"A", "INC", 2020, 1000, some 6, 1500, some 500⟩,
      ⟨"B", "INC", 2020, 3000, some 6, 4500, some 500⟩] 2012 2025).map (·.local_government))
      = ["A", "B"] := by
    unfold groupKeys
    rw [hmapped]
    rw [show List.insertionSort (fun a b : String => a ≤ b) ["A", "B"] = ["A", "B"] from by
      simp only [List.insertionSort, List.orderedInsert]
      rw [if_pos hAB]]
    decide
  have hgrouped : groupedTotals (inRangeRows
      [⟨"A", "INC", 2020, 1000, some 6, 1500, some 500⟩,
       ⟨"B", "INC", 2020, 3000, some 6, 4500, some 500⟩] 2012 2025)
      = [⟨"A", 1000, 1500, 500⟩, ⟨"B", 3000, 4500, 500⟩] := by
    unfold groupedTotals
    rw [hkeys]
    simp [hA, hB, optSum]
  have hsorted : muni_totals [⟨"A", "INC", 2020, 1000, some 6, 1500, some 500⟩,
      ⟨"B", "INC", 2020, 3000, some 6, 4500, some 500⟩] 2012 2025
      = [⟨"B", 3000, 4500, 500⟩, ⟨"A", 1000, 1500, 500⟩] := by
    unfold muni_totals sortDescBy
    rw [hgrouped]
    simp [List.insertionSort, List.orderedInsert]
  refine ⟨by rw [hgrouped]; rfl, by rw [hsorted]; rfl, ?_⟩
  intro h
  have hcontra := h ⟨"A", 1000, 1500, 500⟩ ⟨"B", 3000, 4500, 500⟩ rfl (by rw [hgrouped])
  rw [hsorted] at hcontra
  exact absurd hcontra (by decide)
